import Mathlib

/-!
# Verification of the go-spa password-reset core

A shallow embedding of the repository's two source files:

* `backend/account/reset-token-api.go` — the three password-reset HTTP
  handlers (`ResetPasswordResource.POST`, `ValidateKeyResource.POST`,
  `CompleteResource.POST`);
* `backend/context/context.go` — the endpoint dispatcher
  (`newContextHandler`, `AddEndpoint`), key loading (`LoadSecureKeys`,
  `Configure`).

Pure control flow is translated function-by-function.  Database access
(the `pg` session, the `UserService` / `ResetTokenService` model files)
and the email-format regular expression live outside the provided source
tree, so they are modelled from the spec: the database is an explicit
record of users and reset tokens, fallible persistence operations take
explicit success oracles, and the regular-expression match is an abstract
boolean predicate parameter.  Every handler returns, besides its HTTP
response, the list of collaborator operations it performed, in order, so
that ordering and absence-of-effect properties can be stated.
-/

/-- State of a reset token: `Active` until consumed or invalidated. -/
inductive TokenState where
  | Active
  | Inactive
deriving DecidableEq, Repr, BEq

/-- A password-reset token row.  Fields follow the spec's data model:
owning user id, the single-use key, the state, and the issued-at stamp. -/
structure ResetToken where
  userId : Int
  key : String
  state : TokenState
  createdAt : Nat
deriving DecidableEq, Repr

/-- Modelled from the spec: `ResetToken.Valid()` is defined in the
`account` model file, which is not under the provided source tree.  Per
the spec, `Valid()` holds iff the state is `Active` and the current time
is strictly before issued-at plus the TTL. -/
def ResetToken.Valid (t : ResetToken) (now ttl : Nat) : Bool :=
  t.state == TokenState.Active && decide (now < t.createdAt + ttl)

/-- A user row; the core only needs id, email and the encoded password. -/
structure User where
  id : Int
  email : String
  password : String
deriving DecidableEq, Repr

/-- Modelled from the spec: the persistent store behind `UserService` and
`ResetTokenService` (the `pg` session), with the current time and token
TTL that `Valid()` consults. -/
structure Db where
  users : List User
  tokens : List ResetToken
  now : Nat
  ttl : Nat
deriving DecidableEq, Repr

/-- Modelled from the spec: `ResetTokenService.GetByKey` — point lookup
by key, `NotFoundError` (here `none`) when absent. -/
def Db.getByKey (db : Db) (key : String) : Option ResetToken :=
  db.tokens.find? (fun t => t.key == key)

/-- Modelled from the spec: `UserService.GetById`. -/
def Db.getUserById (db : Db) (id : Int) : Option User :=
  db.users.find? (fun u => u.id == id)

/-- Modelled from the spec: `UserService.GetByEmail`. -/
def Db.getUserByEmail (db : Db) (email : String) : Option User :=
  db.users.find? (fun u => u.email == email)

/-- Modelled from the spec: `ResetTokenService.Update` — persist a token
row, replacing the row with the same key. -/
def Db.updateToken (db : Db) (t : ResetToken) : Db :=
  { db with tokens := db.tokens.map (fun x => if x.key == t.key then t else x) }

/-- Modelled from the spec: `UserService.Update` — persist a user row,
replacing the row with the same id. -/
def Db.updateUser (db : Db) (u : User) : Db :=
  { db with users := db.users.map (fun x => if x.id == u.id then u else x) }

/-- An HTTP-level response as the handlers produce it: `ctx.OK` carries a
payload, `ctx.BadRequest` a 400 message, `ctx.InternalServerError` a 500
message. -/
inductive Response (α : Type) where
  | ok (body : α)
  | badRequest (msg : String)
  | internalError (msg : String)
deriving DecidableEq, Repr

/-- One collaborator operation performed by a handler, recorded in order
of execution. -/
inductive AOp where
  | getUserByEmail (email : String)
  | spawnResetEmail (userId : Int)
  | getTokenByKey (key : String)
  | getUserById (id : Int)
  | userUpdate (id : Int)
  | tokenUpdate (key : String)
  | logError (msg : String)
deriving DecidableEq, Repr

/-- Request body of `POST /account/reset-password`. -/
structure ResetPasswordForm where
  email : String
deriving DecidableEq, Repr

/-- Embeds `ResetPasswordResource.POST` (reset-token-api.go:65-91).
`emailMatch` stands for `regexp.MustCompile(emailRegex).MatchString`; the
regular expression itself is defined in an `account` model file outside
the provided source tree, and only match versus non-match is relevant
here.  The body argument is the result of the JSON decode (`.error e`
when decoding failed with message `e`).  A found user triggers the
detached `go sendResetPasswordEmail` task, recorded as `spawnResetEmail`;
token creation happens only inside that task. -/
def resetPasswordPOST (emailMatch : String → Bool) (db : Db)
    (body : Except String ResetPasswordForm) : Response String × List AOp :=
  match body with
  | .error e => (.badRequest ("Could not query user: " ++ e), [])
  | .ok form =>
    if !(emailMatch form.email) then
      (.badRequest "Invalid email address", [])
    else
      match db.getUserByEmail form.email with
      | none => (.badRequest "User not found", [.getUserByEmail form.email])
      | some user =>
        (.ok "Email sent", [.getUserByEmail form.email, .spawnResetEmail user.id])

/-- Concrete email predicate for witnesses: both addresses used below are
well-formed. -/
def emW : String → Bool := fun e => e == "a@x.com" || e == "b@x.com"

/-- Concrete store for witnesses: one registered user `a@x.com` with one
active reset token `k`. -/
def dbW : Db :=
  { users := [{ id := 1, email := "a@x.com", password := "old" }],
    tokens := [{ userId := 1, key := "k", state := TokenState.Active, createdAt := 0 }],
    now := 1, ttl := 24 }

/-- Success payload of the validate-key step: the bound user id plus the
key the caller supplied (reset-token-api.go:18-21). -/
structure ValidKey where
  userId : Int
  key : String
deriving DecidableEq, Repr

/-- Request body of `POST /account/reset-password/validate-key`. -/
structure ValidateKeyForm where
  key : String
deriving DecidableEq, Repr

/-- Embeds `ValidateKeyResource.POST` (reset-token-api.go:97-117): decode,
look the token up by key, answer 400 "Invalid Key" when the lookup fails
or `Valid()` is false, otherwise 200 with `ValidKey{token.UserId, form.Key}`. -/
def validateKeyPOST (db : Db) (body : Except String ValidateKeyForm) :
    Response ValidKey × List AOp :=
  match body with
  | .error _ => (.badRequest "Unable to validate key", [])
  | .ok form =>
    match db.getByKey form.key with
    | none => (.badRequest "Invalid Key", [.getTokenByKey form.key])
    | some resetToken =>
      if !(resetToken.Valid db.now db.ttl) then
        (.badRequest "Invalid Key", [.getTokenByKey form.key])
      else
        (.ok { userId := resetToken.userId, key := form.key }, [.getTokenByKey form.key])

/-- Request body of `POST /account/reset-password/complete`. -/
structure ChangePasswordForm where
  password : String
  passwordAgain : String
  validKey : ValidKey
deriving DecidableEq, Repr

/-- Outcome oracle for the complete step's fallible collaborator calls:
`encode` is the password hashing (`user.Password.Encode`, `none` on
failure), `userUpdateOk` whether `userService.Update` succeeds,
`tokenUpdateOk` whether the final `resetTokenService.Update` succeeds. -/
structure CompleteOracle where
  encode : String → Option String
  userUpdateOk : Bool
  tokenUpdateOk : Bool

/-- Embeds `CompleteResource.POST` (reset-token-api.go:123-176): decode;
reject mismatched passwords; re-validate the token by key exactly as the
validate step does; load the owning user; encode and persist the new
password; finally mark the token `Inactive` and persist it, logging but
still returning 200 with the updated user if that last persist fails. -/
def completePOST (db : Db) (oc : CompleteOracle)
    (body : Except String ChangePasswordForm) :
    Response User × Db × List AOp :=
  match body with
  | .error _ => (.badRequest "Unable to change the password", db, [])
  | .ok form =>
    if form.password ≠ form.passwordAgain then
      (.badRequest "Passwords mismatch", db, [])
    else
      match db.getByKey form.validKey.key with
      | none => (.badRequest "Invalid Key", db, [.getTokenByKey form.validKey.key])
      | some resetToken =>
        if !(resetToken.Valid db.now db.ttl) then
          (.badRequest "Invalid Key", db, [.getTokenByKey form.validKey.key])
        else
          match db.getUserById resetToken.userId with
          | none =>
            (.internalError "User not found", db,
              [.getTokenByKey form.validKey.key, .getUserById resetToken.userId])
          | some user =>
            match oc.encode form.password with
            | none =>
              (.internalError "Could not change user password", db,
                [.getTokenByKey form.validKey.key, .getUserById resetToken.userId])
            | some hashed =>
              let user' : User := { user with password := hashed }
              if !oc.userUpdateOk then
                (.internalError "Could not change user password", db,
                  [.getTokenByKey form.validKey.key, .getUserById resetToken.userId,
                   .userUpdate user'.id])
              else
                let db' := db.updateUser user'
                if !oc.tokenUpdateOk then
                  (.ok user', db',
                    [.getTokenByKey form.validKey.key, .getUserById resetToken.userId,
                     .userUpdate user'.id, .tokenUpdate resetToken.key,
                     .logError "Unable to invalidate token"])
                else
                  (.ok user',
                    db'.updateToken { resetToken with state := TokenState.Inactive },
                    [.getTokenByKey form.validKey.key, .getUserById resetToken.userId,
                     .userUpdate user'.id, .tokenUpdate resetToken.key])

/-- Concrete oracle for witnesses: hashing succeeds, both persists
succeed. -/
def ocW : CompleteOracle :=
  { encode := fun s => some ("h" ++ s), userUpdateOk := true, tokenUpdateOk := true }

/-- Concrete oracle in which the final token-invalidation persist fails. -/
def oc5W : CompleteOracle :=
  { encode := fun s => some ("h" ++ s), userUpdateOk := true, tokenUpdateOk := false }

/-- Concrete complete-step form with matching passwords for token `k`. -/
def cformW : ChangePasswordForm :=
  { password := "p", passwordAgain := "p", validKey := { userId := 1, key := "k" } }

/-- Concrete complete-step form with mismatched passwords. -/
def mformW : ChangePasswordForm :=
  { password := "a", passwordAgain := "b", validKey := { userId := 1, key := "k" } }

/-- Concrete store with one valid token `k` and one inactive token `x`,
for exercising the three validate-key cases. -/
def db7W : Db :=
  { users := [{ id := 1, email := "a@x.com", password := "old" }],
    tokens := [{ userId := 1, key := "k", state := TokenState.Active, createdAt := 0 },
               { userId := 1, key := "x", state := TokenState.Inactive, createdAt := 0 }],
    now := 1, ttl := 24 }

/-- An authenticated credential as produced by `jwt.ParseFromRequest`;
opaque here, since only its presence or absence matters to dispatch. -/
structure JwtToken where
  raw : String
deriving DecidableEq, Repr

/-- A handler as stored in an endpoint's method map (`ContextHandler`,
context.go:21): it receives the execution context's identity
(`Context.Token`, absent when no credential was parsed) and returns
either `nil` — modelled `.ok` with the body it wrote — or an error the
dispatcher maps to a 400. -/
def CtxHandler : Type := Option JwtToken → Except String String

/-- The endpoint's method-to-handler map (`MethodHandlers`,
context.go:23). -/
def MethodHandlers : Type := List (String × CtxHandler)

/-- Embeds `MethodHandlers.IsAllowed` (context.go:25-32): the request
method equals some key of the map. -/
def IsAllowed (handlers : MethodHandlers) (method : String) : Bool :=
  handlers.any (fun p => method == p.1)

/-- An endpoint definition (context.go:34-38). -/
structure Endpoint where
  public : Bool
  path : String
  handlers : MethodHandlers

/-- A response at the dispatcher boundary: `http.Error` carries a status
code and message, a handler's own write carries a body. -/
inductive HttpResponse where
  | ok (body : String)
  | error (status : Nat) (msg : String)
deriving DecidableEq, Repr

/-- A dispatch-level operation, recorded in execution order. -/
inductive DispOp where
  | parseCred
  | updateT
  | runHandler (method : String)
deriving DecidableEq, Repr

/-- Embeds `newContextHandler` (context.go:117-134): a method missing
from the map is rejected with 405 before anything else runs; for a
non-public endpoint the request credential is parsed with the parse
error discarded (`context.Token, _ = jwt.ParseFromRequest(...)`,
context.go:124); the locale is updated; the mapped handler runs with the
resulting identity; a handler error becomes a 400.  `parse` models
`jwt.ParseFromRequest` plus the verification-key check — per the spec an
absent or failing credential yields no identity.  Once `IsAllowed` has
succeeded the map lookup cannot miss (`isAllowed_lookup_isSome`); the
impossible branch is modelled as a distinguished 500. -/
def newContextHandler (endpoint : Endpoint) (parse : Option JwtToken)
    (method : String) : HttpResponse × List DispOp :=
  if !(IsAllowed endpoint.handlers method) then
    (.error 405 "Method not allowed", [])
  else
    let tok : Option JwtToken × List DispOp :=
      if !endpoint.public then (parse, [.parseCred]) else (none, [])
    let ops := tok.2 ++ [DispOp.updateT]
    match endpoint.handlers.lookup method with
    | some h =>
      match h tok.1 with
      | .ok body => (.ok body, ops ++ [.runHandler method])
      | .error msg => (.error 400 msg, ops ++ [.runHandler method])
    | none => (.error 500 "nil handler", ops)

/-- Concrete protected endpoint for witnesses: a single POST handler
whose output records whether an identity was present. -/
def epW : Endpoint :=
  { public := false, path := "/account/reset-password",
    handlers := [("POST",
      fun tok => .ok (match tok with | none => "anon" | some _ => "auth"))] }

/-- The two package-level key variables (context.go:15-19); `none`
models the nil byte slice before a successful read. -/
structure KeyState where
  signKey : Option String
  verifyKey : Option String
deriving DecidableEq, Repr

/-- Embeds `LoadSecureKeys` (context.go:105-115): read the private key
into `signKey`, answering "Error reading private key" on failure, then
the public key into `verifyKey`, answering "Error reading public key" on
failure.  `readFile` models `ioutil.ReadFile` with `none` as a failed
read; the result is the updated package state plus the error value. -/
def LoadSecureKeys (readFile : String → Option String) (ks : KeyState)
    (privateKeyPath publicKeyPath : String) : KeyState × Option String :=
  match readFile privateKeyPath with
  | none => ({ ks with signKey := none }, some "Error reading private key")
  | some sk =>
    match readFile publicKeyPath with
    | none =>
      ({ signKey := some sk, verifyKey := none }, some "Error reading public key")
    | some vk => ({ signKey := some sk, verifyKey := some vk }, none)

/-- Embeds `Configure` (context.go:44-55): it calls `LoadSecureKeys`
with the error value discarded (context.go:47), then `New` — whose error
return is always nil (context.go:67-79) — and returns that nil error.
The result is the key state after loading plus `Configure`'s own error
value. -/
def Configure (readFile : String → Option String) (ks : KeyState)
    (privateKeyPath publicKeyPath : String) : KeyState × Option String :=
  let loaded := LoadSecureKeys readFile ks privateKeyPath publicKeyPath
  (loaded.1, none)

/-- Program counter of one in-flight complete-step request, at the
granularity of its store round-trips. -/
inductive CState where
  | start (form : ChangePasswordForm)
  | haveToken (form : ChangePasswordForm) (resetToken : ResetToken)
  | haveUser (form : ChangePasswordForm) (resetToken : ResetToken) (user : User)
  | userUpdated (resetToken : ResetToken) (user' : User)
  | done (resp : Response User)
deriving DecidableEq, Repr

/-- One atomic store round-trip of `CompleteResource.POST`, taken
against the shared store `db`; the phases mirror `completePOST`, so an
interleaving of concurrent complete-step requests is an interleaving of
their store operations (`crun_four_eq_completePOST` checks that the
sequential run coincides with the handler). -/
def cstep (oc : CompleteOracle) (db : Db) (s : CState) : Db × CState :=
  match s with
  | .start form =>
    if form.password ≠ form.passwordAgain then
      (db, .done (.badRequest "Passwords mismatch"))
    else
      match db.getByKey form.validKey.key with
      | none => (db, .done (.badRequest "Invalid Key"))
      | some resetToken =>
        if !(resetToken.Valid db.now db.ttl) then
          (db, .done (.badRequest "Invalid Key"))
        else (db, .haveToken form resetToken)
  | .haveToken form resetToken =>
    match db.getUserById resetToken.userId with
    | none => (db, .done (.internalError "User not found"))
    | some user => (db, .haveUser form resetToken user)
  | .haveUser form resetToken user =>
    match oc.encode form.password with
    | none => (db, .done (.internalError "Could not change user password"))
    | some hashed =>
      if !oc.userUpdateOk then
        (db, .done (.internalError "Could not change user password"))
      else
        (db.updateUser { user with password := hashed },
         .userUpdated resetToken { user with password := hashed })
  | .userUpdated resetToken user' =>
    if !oc.tokenUpdateOk then
      (db, .done (.ok user'))
    else
      (db.updateToken { resetToken with state := TokenState.Inactive }, .done (.ok user'))
  | .done r => (db, .done r)

/-- Run one request for a bounded number of atomic steps. -/
def crun : Nat → CompleteOracle → Db → CState → Db × CState
  | 0, _, db, s => (db, s)
  | n + 1, oc, db, s =>
    let next := cstep oc db s
    crun n oc next.1 next.2

/-- Run two complete-step requests concurrently against the shared
store; `sched` says which request performs its next atomic store step
(`true` for the first request). -/
def run2 : List Bool → CompleteOracle → Db → CState → CState → Db × CState × CState
  | [], _, db, s1, s2 => (db, s1, s2)
  | true :: rest, oc, db, s1, s2 =>
    let next := cstep oc db s1
    run2 rest oc next.1 next.2 s2
  | false :: rest, oc, db, s1, s2 =>
    let next := cstep oc db s2
    run2 rest oc next.1 s1 next.2

/-- Second concurrent complete-step form for the race: same valid key
`k`, new password "q". -/
def c9formW : ChangePasswordForm :=
  { password := "q", passwordAgain := "q", validKey := { userId := 1, key := "k" } }

/-- The interleaving refuting the race-freedom claim: both requests read
the token before either invalidates it. -/
def raceSched : List Bool := [true, false, true, true, true, false, false, false]

/-- C1 counterexample: with user `a@x.com` registered and `b@x.com` not,
both emails well-formed, the two reset-password responses differ — the
unregistered email receives 400 "User not found", not the 200 "Email
sent" success, so the response does reveal whether the email is
registered. -/
theorem resetPassword_response_reveals_registration :
    (resetPasswordPOST emW dbW (.ok { email := "b@x.com" })).1
      = Response.badRequest "User not found" ∧
    (resetPasswordPOST emW dbW (.ok { email := "a@x.com" })).1
      = Response.ok "Email sent" ∧
    (Response.badRequest "User not found" : Response String)
      ≠ Response.ok "Email sent" := by
  refine ⟨rfl, rfl, ?_⟩
  decide

/-- C1 amended: for a well-formed email with no matching user the handler
returns 400 "User not found" — revealing that the email is unregistered —
having performed only the user lookup, so no token is issued and no
notification task is spawned; for a registered user it returns 200
"Email sent". -/
theorem resetPassword_user_not_found_behavior
    (em : String → Bool) (db : Db) (form : ResetPasswordForm)
    (hm : em form.email = true) :
    (db.getUserByEmail form.email = none →
      resetPasswordPOST em db (.ok form)
        = (.badRequest "User not found", [.getUserByEmail form.email])) ∧
    (∀ u, db.getUserByEmail form.email = some u →
      resetPasswordPOST em db (.ok form)
        = (.ok "Email sent", [.getUserByEmail form.email, .spawnResetEmail u.id])) := by
  constructor
  · intro hnone
    simp [resetPasswordPOST, hm, hnone]
  · intro u hu
    simp [resetPasswordPOST, hm, hu]

/-- C1 witness: the amended theorem evaluated at the concrete store. -/
theorem resetPassword_user_not_found_behavior_witness :
    resetPasswordPOST emW dbW (.ok { email := "b@x.com" })
      = (.badRequest "User not found", [.getUserByEmail "b@x.com"]) :=
  (resetPassword_user_not_found_behavior emW dbW { email := "b@x.com" }
    (by decide)).1 (by decide)

/-- C10: a decoded email rejected by the email regular expression gets
400 "Invalid email address" with no collaborator operation at all — no
user lookup, no token issuance, no notification. -/
theorem resetPassword_invalid_email_rejected_first
    (em : String → Bool) (db : Db) (form : ResetPasswordForm)
    (hm : em form.email = false) :
    resetPasswordPOST em db (.ok form) = (.badRequest "Invalid email address", []) := by
  simp [resetPasswordPOST, hm]

/-- C10 witness: the concrete email `"nope"` fails the predicate and is
rejected with no operations performed. -/
theorem resetPassword_invalid_email_rejected_first_witness :
    resetPasswordPOST emW dbW (.ok { email := "nope" })
      = (.badRequest "Invalid email address", []) :=
  resetPassword_invalid_email_rejected_first emW dbW { email := "nope" } (by decide)

/-- A user returned by `getUserById` carries the id that was looked up. -/
theorem Db.getUserById_id (db : Db) (id : Int) (u : User)
    (h : db.getUserById id = some u) : u.id = id := by
  have hp := List.find?_some h
  simpa using hp

/-- C6: a complete-step request whose passwords differ returns 400
"Passwords mismatch", leaves the store untouched and performs no
token-store or user-store operation, so every token — in particular the
bound one — keeps its state. -/
theorem complete_password_mismatch_no_ops
    (db : Db) (oc : CompleteOracle) (form : ChangePasswordForm)
    (h : form.password ≠ form.passwordAgain) :
    completePOST db oc (.ok form) = (.badRequest "Passwords mismatch", db, []) := by
  simp [completePOST, h]

/-- C6 witness: the mismatch form `{password := "a", passwordAgain := "b"}`
is rejected with no operations, and the bound token `k` is still
`Active` in the returned store. -/
theorem complete_password_mismatch_no_ops_witness :
    completePOST dbW ocW (.ok mformW) = (.badRequest "Passwords mismatch", dbW, []) ∧
    ((completePOST dbW ocW (.ok mformW)).2.1.getByKey "k").map ResetToken.state
      = some TokenState.Active := by
  have h := complete_password_mismatch_no_ops dbW ocW mformW (by decide)
  exact ⟨h, by rw [h]; decide⟩

/-- C7: validate-key answers the identical 400 "Invalid Key" response
both when no token has the supplied key and when the token exists but
`Valid()` is false, so the two failure cases are indistinguishable to the
caller; on success it returns exactly the bound user id and the key that
was supplied. -/
theorem validateKey_cases (db : Db) (form : ValidateKeyForm) :
    (db.getByKey form.key = none →
      validateKeyPOST db (.ok form)
        = (.badRequest "Invalid Key", [.getTokenByKey form.key])) ∧
    (∀ t, db.getByKey form.key = some t → t.Valid db.now db.ttl = false →
      validateKeyPOST db (.ok form)
        = (.badRequest "Invalid Key", [.getTokenByKey form.key])) ∧
    (∀ t, db.getByKey form.key = some t → t.Valid db.now db.ttl = true →
      validateKeyPOST db (.ok form)
        = (.ok { userId := t.userId, key := form.key }, [.getTokenByKey form.key])) := by
  refine ⟨?_, ?_, ?_⟩
  · intro h
    simp [validateKeyPOST, h]
  · intro t h hv
    simp [validateKeyPOST, h, hv]
  · intro t h hv
    simp [validateKeyPOST, h, hv]

/-- C7 witness: at a store holding a valid token `k` and an inactive
token `x`, the missing key `z` and the invalid key `x` get the same
"Invalid Key" response, and `k` succeeds with its bound user id. -/
theorem validateKey_cases_witness :
    validateKeyPOST db7W (.ok { key := "z" })
      = (.badRequest "Invalid Key", [.getTokenByKey "z"]) ∧
    validateKeyPOST db7W (.ok { key := "x" })
      = (.badRequest "Invalid Key", [.getTokenByKey "x"]) ∧
    validateKeyPOST db7W (.ok { key := "k" })
      = (.ok { userId := 1, key := "k" }, [.getTokenByKey "k"]) :=
  ⟨(validateKey_cases db7W { key := "z" }).1 (by decide),
   (validateKey_cases db7W { key := "x" }).2.1
     { userId := 1, key := "x", state := TokenState.Inactive, createdAt := 0 }
     (by decide) (by decide),
   (validateKey_cases db7W { key := "k" }).2.2
     { userId := 1, key := "k", state := TokenState.Active, createdAt := 0 }
     (by decide) (by decide)⟩

/-- C8: with matching passwords, the complete step's re-validation rejects
with 400 "Invalid Key" exactly for those keys the validate-key operation
rejects at the same store state, with the same error response. -/
theorem complete_revalidation_equals_validate
    (db : Db) (oc : CompleteOracle) (form : ChangePasswordForm)
    (hpw : form.password = form.passwordAgain) :
    ((completePOST db oc (.ok form)).1 = Response.badRequest "Invalid Key"
      ↔ (validateKeyPOST db (.ok { key := form.validKey.key })).1
          = Response.badRequest "Invalid Key") := by
  rcases hbk : db.getByKey form.validKey.key with _ | t
  · simp [completePOST, validateKeyPOST, hpw, hbk]
  · cases hv : t.Valid db.now db.ttl with
    | false => simp [completePOST, validateKeyPOST, hpw, hbk, hv]
    | true =>
      rcases hu : db.getUserById t.userId with _ | user
      · simp [completePOST, validateKeyPOST, hpw, hbk, hv, hu]
      · rcases he : oc.encode form.passwordAgain with _ | hp
        · simp [completePOST, validateKeyPOST, hpw, hbk, hv, hu, he]
        · cases huu : oc.userUpdateOk with
          | false => simp [completePOST, validateKeyPOST, hpw, hbk, hv, hu, he, huu]
          | true =>
            cases htu : oc.tokenUpdateOk with
            | false => simp [completePOST, validateKeyPOST, hpw, hbk, hv, hu, he, huu, htu]
            | true => simp [completePOST, validateKeyPOST, hpw, hbk, hv, hu, he, huu, htu]

/-- C8 witness: the equivalence at the concrete store and the concrete
matching-password form bound to key `k`. -/
theorem complete_revalidation_equals_validate_witness :
    ((completePOST dbW ocW (.ok cformW)).1 = Response.badRequest "Invalid Key"
      ↔ (validateKeyPOST dbW (.ok { key := "k" })).1
          = Response.badRequest "Invalid Key") := by
  simpa using complete_revalidation_equals_validate dbW ocW cformW rfl

/-- C5: whenever `tokenUpdate` appears in the complete step's operation
trace, the user update has already been attempted and has succeeded — the
trace begins with the token lookup, the user fetch, the successful user
update, and only then the token update; and when the final
token-invalidation persist fails the handler logs the failure and still
returns 200 with the updated user and the user update applied. -/
theorem complete_invalidation_ordering_and_late_failure
    (db : Db) (oc : CompleteOracle) (body : Except String ChangePasswordForm) :
    (∀ k, AOp.tokenUpdate k ∈ (completePOST db oc body).2.2 →
      oc.userUpdateOk = true ∧
      ∃ fk uid rest, (completePOST db oc body).2.2
        = [.getTokenByKey fk, .getUserById uid, .userUpdate uid, .tokenUpdate k]
            ++ rest) ∧
    (∀ form resetToken user hashed,
      body = .ok form →
      form.password = form.passwordAgain →
      db.getByKey form.validKey.key = some resetToken →
      resetToken.Valid db.now db.ttl = true →
      db.getUserById resetToken.userId = some user →
      oc.encode form.password = some hashed →
      oc.userUpdateOk = true →
      oc.tokenUpdateOk = false →
      completePOST db oc body
        = (.ok { user with password := hashed },
           db.updateUser { user with password := hashed },
           [.getTokenByKey form.validKey.key, .getUserById resetToken.userId,
            .userUpdate user.id, .tokenUpdate resetToken.key,
            .logError "Unable to invalidate token"])) := by
  constructor
  · intro k hk
    cases body with
    | error e => simp [completePOST] at hk
    | ok form =>
      by_cases hpw : form.password = form.passwordAgain
      · rcases hbk : db.getByKey form.validKey.key with _ | t
        · simp [completePOST, hpw, hbk] at hk
        · cases hv : t.Valid db.now db.ttl with
          | false => simp [completePOST, hpw, hbk, hv] at hk
          | true =>
            rcases hu : db.getUserById t.userId with _ | user
            · simp [completePOST, hpw, hbk, hv, hu] at hk
            · rcases he : oc.encode form.passwordAgain with _ | hp
              · simp [completePOST, hpw, hbk, hv, hu, he] at hk
              · cases huu : oc.userUpdateOk with
                | false => simp [completePOST, hpw, hbk, hv, hu, he, huu] at hk
                | true =>
                  have hid : user.id = t.userId := Db.getUserById_id db t.userId user hu
                  cases htu : oc.tokenUpdateOk with
                  | false =>
                    have htrace : (completePOST db oc (.ok form)).2.2
                        = [.getTokenByKey form.validKey.key, .getUserById t.userId,
                           .userUpdate user.id, .tokenUpdate t.key,
                           .logError "Unable to invalidate token"] := by
                      simp [completePOST, hpw, hbk, hv, hu, he, huu, htu]
                    rw [htrace] at hk
                    simp at hk
                    subst hk
                    refine ⟨rfl, form.validKey.key, t.userId,
                      [.logError "Unable to invalidate token"], ?_⟩
                    rw [htrace, hid]
                    rfl
                  | true =>
                    have htrace : (completePOST db oc (.ok form)).2.2
                        = [.getTokenByKey form.validKey.key, .getUserById t.userId,
                           .userUpdate user.id, .tokenUpdate t.key] := by
                      simp [completePOST, hpw, hbk, hv, hu, he, huu, htu]
                    rw [htrace] at hk
                    simp at hk
                    subst hk
                    refine ⟨rfl, form.validKey.key, t.userId, [], ?_⟩
                    rw [htrace, hid]
                    rfl
      · simp [completePOST, hpw] at hk
  · intro form resetToken user hashed hb hpw hbk hv hu he huu htu
    subst hb
    rw [hpw] at he
    simp [completePOST, hpw, hbk, hv, hu, he, huu, htu]

/-- C5 witness: with every step succeeding except the final token
invalidation, the complete step returns 200 with the updated user, the
user update persisted, and the invalidation failure logged after the
user update in the trace. -/
theorem complete_invalidation_ordering_and_late_failure_witness :
    completePOST dbW oc5W (.ok cformW)
      = (.ok { id := 1, email := "a@x.com", password := "hp" },
         dbW.updateUser { id := 1, email := "a@x.com", password := "hp" },
         [.getTokenByKey "k", .getUserById 1, .userUpdate 1, .tokenUpdate "k",
          .logError "Unable to invalidate token"]) := by
  have h := (complete_invalidation_ordering_and_late_failure dbW oc5W (.ok cformW)).2
    cformW { userId := 1, key := "k", state := TokenState.Active, createdAt := 0 }
    { id := 1, email := "a@x.com", password := "old" } "hp"
    rfl rfl (by decide) (by decide) (by decide) rfl rfl rfl
  simpa using h

/-- Once `IsAllowed` accepts a method, the map lookup succeeds, so the
dispatcher's nil-handler branch is unreachable. -/
theorem isAllowed_lookup_isSome (handlers : MethodHandlers) (method : String)
    (h : IsAllowed handlers method = true) :
    (handlers.lookup method).isSome := by
  induction handlers with
  | nil => simp [IsAllowed] at h
  | cons p tl ih =>
    rcases p with ⟨k, v⟩
    by_cases hk : (method == k) = true
    · simp only [List.lookup, hk, Option.isSome_some]
    · have hb : (method == k) = false := by simpa using hk
      have h' : IsAllowed tl method = true := by
        simpa [IsAllowed, hb] using h
      simp only [List.lookup, hb]
      exact ih h'

/-- C2: at a failing key read, `LoadSecureKeys` reports "Error reading
private key", yet `Configure` discards that error (context.go:47) and
returns a nil error — indeed `Configure` returns nil unconditionally —
so a key-load failure does not abort startup as the spec requires. -/
theorem configure_ignores_key_load_failure :
    (LoadSecureKeys (fun _ => none) { signKey := none, verifyKey := none }
        "priv.pem" "pub.pem").2 = some "Error reading private key" ∧
    (Configure (fun _ => none) { signKey := none, verifyKey := none }
        "priv.pem" "pub.pem").2 = none ∧
    (∀ readFile ks privateKeyPath publicKeyPath,
      (Configure readFile ks privateKeyPath publicKeyPath).2 = none) :=
  ⟨rfl, rfl, fun _ _ _ _ => rfl⟩

/-- C3: a request whose method is not in the endpoint's handler map is
answered 405 "Method not allowed" with an empty operation trace — no
credential parsing, no handler run — and since the answer is a constant,
it is the same for public and protected endpoints alike. -/
theorem dispatch_method_check_before_auth
    (endpoint : Endpoint) (parse : Option JwtToken) (method : String)
    (h : IsAllowed endpoint.handlers method = false) :
    newContextHandler endpoint parse method
      = (.error 405 "Method not allowed", []) := by
  simp [newContextHandler, h]

/-- C3 witness: a GET against the protected POST-only endpoint, carrying
a credential, is answered 405 with nothing parsed or run. -/
theorem dispatch_method_check_before_auth_witness :
    newContextHandler epW (some { raw := "cred" }) "GET"
      = (.error 405 "Method not allowed", []) :=
  dispatch_method_check_before_auth epW (some { raw := "cred" }) "GET" rfl

/-- C4: for a protected endpoint and an allowed method, when credential
parsing yields no identity the request is not rejected at dispatch: the
mapped handler still runs, with `none` as the execution context's
identity, the response is the handler's own outcome (an error becoming a
400), and the trace records the parse, the locale update, then the
handler. -/
theorem dispatch_passes_absent_identity
    (endpoint : Endpoint) (method : String) (h : CtxHandler)
    (hpub : endpoint.public = false)
    (hallow : IsAllowed endpoint.handlers method = true)
    (hlook : endpoint.handlers.lookup method = some h) :
    newContextHandler endpoint none method
      = ((match h none with
          | .ok body => HttpResponse.ok body
          | .error msg => HttpResponse.error 400 msg),
         [.parseCred, .updateT, .runHandler method]) := by
  cases hr : h none with
  | ok body => simp [newContextHandler, hpub, hallow, hlook, hr]
  | error msg => simp [newContextHandler, hpub, hallow, hlook, hr]

/-- C4 witness: an unauthenticated POST to the protected endpoint
reaches the handler, which observes the absent identity. -/
theorem dispatch_passes_absent_identity_witness :
    newContextHandler epW none "POST"
      = (.ok "anon", [.parseCred, .updateT, .runHandler "POST"]) := by
  have h := dispatch_passes_absent_identity epW "POST"
    (fun tok => .ok (match tok with | none => "anon" | some _ => "auth"))
    rfl rfl rfl
  simpa using h

/-- The sequential run of the atomic-step machine coincides with the
complete-step handler: four steps from `start` yield exactly the
handler's response and final store. -/
theorem crun_four_eq_completePOST
    (db : Db) (oc : CompleteOracle) (form : ChangePasswordForm) :
    crun 4 oc db (.start form)
      = ((completePOST db oc (.ok form)).2.1,
         .done (completePOST db oc (.ok form)).1) := by
  by_cases hpw : form.password = form.passwordAgain
  · rcases hbk : db.getByKey form.validKey.key with _ | t
    · simp [crun, cstep, completePOST, hpw, hbk]
    · cases hv : t.Valid db.now db.ttl with
      | false => simp [crun, cstep, completePOST, hpw, hbk, hv]
      | true =>
        rcases hu : db.getUserById t.userId with _ | user
        · simp [crun, cstep, completePOST, hpw, hbk, hv, hu]
        · rcases he : oc.encode form.passwordAgain with _ | hp
          · simp [crun, cstep, completePOST, hpw, hbk, hv, hu, he]
          · cases huu : oc.userUpdateOk with
            | false => simp [crun, cstep, completePOST, hpw, hbk, hv, hu, he, huu]
            | true =>
              cases htu : oc.tokenUpdateOk with
              | false => simp [crun, cstep, completePOST, hpw, hbk, hv, hu, he, huu, htu]
              | true => simp [crun, cstep, completePOST, hpw, hbk, hv, hu, he, huu, htu]
  · simp [crun, cstep, completePOST, hpw]

/-- C9: the interleaving in which both concurrent complete-step requests
read the still-active token `k` before either invalidates it ends with
both requests reporting a successful password change — two password
changes authorized by one token — refuting the exactly-one-success
claim. -/
theorem complete_race_double_success :
    (run2 raceSched ocW dbW (.start cformW) (.start c9formW)).2.1
      = CState.done (.ok { id := 1, email := "a@x.com", password := "hp" }) ∧
    (run2 raceSched ocW dbW (.start cformW) (.start c9formW)).2.2
      = CState.done (.ok { id := 1, email := "a@x.com", password := "hq" }) := by
  constructor <;> decide
